import Mathlib

/-!
Shallow embedding of the xatu cannon orchestrator (pkg/cannon/cannon.go),
the wallclock time window (pkg/wallclock/time_window.go) and the
configuration validation chain, together with theorems checking the
natural-language specification against it.

Go machine integers are modelled as `Int`/`Nat` with explicit wrapping;
external collaborators (sinks, the beacon node, the coordinator, the NTP
server) are modelled by the results they hand back to the orchestrator,
passed in as explicit parameters.
-/

namespace Xatu

/-- Go conversion semantics: `uint64(x)` for an `int64` value `x` wraps
modulo 2^64 (two's-complement reinterpretation). -/
def goUint64OfInt64 (x : Int) : Nat :=
  (x % (2 : Int) ^ 64).toNat

/-- Go `time.Duration.Milliseconds()`: the duration (int64 nanoseconds)
divided by 10^6 with truncation toward zero, as Go integer division does. -/
def goMilliseconds (d : Int) : Int :=
  d.tdiv 1000000

/-- The closed enumeration of cannon event-type tags used by the six
derivers (the `xatu.CannonType_BEACON_API_ETH_V2_BEACON_BLOCK_*` constants
referenced in `startBeaconBlockProcessor`). -/
inductive CannonType where
  | attesterSlashing
  | proposerSlashing
  | voluntaryExit
  | deposit
  | blsToExecutionChange
  | executionTransaction
deriving DecidableEq, Repr, Inhabited

/-- Embeds `xatu.ClientMeta_Ethereum_Network`: network name and numeric id. -/
structure ClientMetaNetwork where
  name : String
  id : Nat
deriving DecidableEq, Repr, Inhabited

/-- Embeds `xatu.ClientMeta` as populated by `createNewClientMeta`. -/
structure ClientMeta where
  name : String
  version : String
  id : String
  implementation : String
  os : String
  clockDrift : Nat
  network : Option ClientMetaNetwork
  consensusImplementation : String
  consensusVersion : String
  labels : List (String × String)
deriving DecidableEq, Repr, Inhabited

/-- A decorated event as it reaches the sink fan-out: the event-type tag,
the client meta decoration and an abstract payload. -/
structure DecoratedEvent where
  eventType : CannonType
  meta : ClientMeta
  payload : String
deriving DecidableEq, Repr, Inhabited

/-- An output sink, modelled by its type label and the results its
operations return (`none` = nil error in Go). -/
structure Sink where
  typeName : String
  handleResult : List DecoratedEvent → Option String
  startResult : Option String
  stopResult : Option String

/-- Ethereum section of the cannon configuration
(`c.Config.Ethereum.OverrideNetworkName` is the only field cannon.go reads). -/
structure EthereumConfig where
  overrideNetworkName : String
deriving DecidableEq, Repr

/-- A sub-configuration, modelled by the result of its `Validate()` call
(`none` = nil error). -/
structure SubConfig where
  validateErr : Option String
deriving DecidableEq, Repr

/-- The configuration handed to `New`.  The fields are the ones cannon.go
reads, plus the three sub-configurations whose validation `Config.Validate`
chains. -/
structure Config where
  name : String
  ntpServer : String
  labels : List (String × String)
  ethereum : EthereumConfig
  metricsAddr : String
  pprofAddr : Option String
  services : SubConfig
  store : SubConfig
  geoip : SubConfig
deriving DecidableEq, Repr

/-- Embeds `Config.Validate`: it validates the sub-configurations in order and
returns the first error, nil when all succeed. -/
def Config.Validate (c : Config) : Option String :=
  match c.services.validateErr with
  | some e => some e
  | none =>
    match c.store.validateErr with
    | some e => some e
    | none => c.geoip.validateErr

/-- The network identity reported by the beacon node metadata
(`c.beacon.Metadata().Network`); nil in Go becomes `none`. -/
structure BeaconNetwork where
  name : String
  id : Nat
deriving DecidableEq, Repr

/-- The slice of `c.beacon.Metadata()` that cannon.go consumes. -/
structure BeaconMetadata where
  network : Option BeaconNetwork
  client : String
  nodeVersion : String
deriving DecidableEq, Repr

/-- The beacon node collaborator, reduced to the metadata view cannon.go
reads. -/
structure BeaconNode where
  metadata : BeaconMetadata
deriving DecidableEq, Repr

/-- The coordinator client collaborator (opaque to cannon.go). -/
structure CoordinatorClient where
  address : String
deriving DecidableEq, Repr

/-- A checkpoint iterator as constructed by `iterator.NewCheckpointIterator`
inside the readiness callback: the parameters cannon.go passes that
distinguish the six instances. -/
structure CheckpointIterator where
  networkName : String
  networkID : String
  cannonType : CannonType
  checkpointName : String
deriving DecidableEq, Repr, Inhabited

/-- An event deriver as constructed by the six `v2.New*Deriver` calls:
its event-type tag, its own checkpoint iterator, and the client meta it
was handed. -/
structure EventDeriver where
  cannonType : CannonType
  iter : CheckpointIterator
  clientMeta : ClientMeta
deriving DecidableEq, Repr, Inhabited

/-- The mutable state of a `Cannon` value (the struct fields cannon.go
declares, with external handles reduced to the data read from them).
`clockDrift` is a Go `time.Duration`, i.e. int64 nanoseconds. -/
structure CannonState where
  config : Config
  sinks : List Sink
  beacon : BeaconNode
  clockDrift : Int
  idStr : String
  eventDerivers : Option (List EventDeriver)
  coordinatorClient : CoordinatorClient

/-- Stands for `xatu.Short()` — version string from a package outside src/. -/
def xatuShortVersion : String := "xatu/unknown"

/-- Stands for `xatu.Implementation` — constant from a package outside src/. -/
def xatuImplementation : String := "Xatu"

/-- Stands for `runtime.GOOS` of the host. -/
def goosValue : String := "linux"

/-- Embeds `createNewClientMeta`: builds the client meta from the current state,
applying the network-name override and stamping
`ClockDrift: uint64(c.clockDrift.Milliseconds())`. -/
def createNewClientMeta (st : CannonState) : ClientMeta :=
  let networkMeta : Option ClientMetaNetwork :=
    match st.beacon.metadata.network with
    | none => none
    | some nw =>
      some { name := if st.config.ethereum.overrideNetworkName ≠ "" then
                       st.config.ethereum.overrideNetworkName
                     else nw.name
             id := nw.id }
  { name := st.config.name
    version := xatuShortVersion
    id := st.idStr
    implementation := xatuImplementation
    os := goosValue
    clockDrift := goUint64OfInt64 (goMilliseconds st.clockDrift)
    network := networkMeta
    consensusImplementation := st.beacon.metadata.client
    consensusVersion := st.beacon.metadata.nodeVersion
    labels := st.config.labels }

/-- Embeds `New(ctx, log, config)`: nil config and validation failure abort with
an error; the results of the three external constructor calls
(`config.CreateSinks`, `ethereum.NewBeaconNode`, `coordinator.New`) are
passed in as parameters; on success the returned Cannon has zero clock
drift and nil `eventDerivers`. -/
def New (config : Option Config)
    (sinksRes : Except String (List Sink))
    (beaconRes : Except String BeaconNode)
    (coordRes : Except String CoordinatorClient)
    (freshId : String) : Except String CannonState :=
  match config with
  | none => .error "config is required"
  | some cfg =>
    match cfg.Validate with
    | some e => .error e
    | none =>
      match sinksRes with
      | .error e => .error e
      | .ok sinks =>
        match beaconRes with
        | .error e => .error e
        | .ok beacon =>
          match coordRes with
          | .error e => .error e
          | .ok coord =>
            .ok { config := cfg
                  sinks := sinks
                  beacon := beacon
                  clockDrift := 0
                  idStr := freshId
                  eventDerivers := none
                  coordinatorClient := coord }

/-- The outcome of one run of `handleNewDecoratedEvents`: the
`HandleNewDecoratedEvents` calls made (sink type label paired with the
batch it received, in order), the error log lines produced, the number of
`metrics.AddDecoratedEvent` increments, and the returned error. -/
structure FanoutResult where
  calls : List (String × List DecoratedEvent)
  errorLogs : List String
  metricIncrements : Nat
  ret : Option String
deriving DecidableEq, Repr

/-- The sink loop of `handleNewDecoratedEvents`: each sink in order gets
the batch; a returned error is logged and the loop continues. -/
def sinkLoop (sinks : List Sink) (events : List DecoratedEvent) :
    List (String × List DecoratedEvent) × List String :=
  match sinks with
  | [] => ([], [])
  | s :: rest =>
    let tail := sinkLoop rest events
    ((s.typeName, events) :: tail.1,
     (match s.handleResult events with
      | some e => ["Failed to send events to sink " ++ s.typeName ++ ": " ++ e]
      | none => []) ++ tail.2)

/-- Embeds `handleNewDecoratedEvents`: fans the batch out to every sink, logs
sink errors, bumps the decorated-event metric once per event, and returns
nil. -/
def handleNewDecoratedEvents (sinks : List Sink) (events : List DecoratedEvent) :
    FanoutResult :=
  let fan := sinkLoop sinks events
  { calls := fan.1
    errorLogs := fan.2
    metricIncrements := events.length
    ret := none }

/-- The response of `ntp.Query`, reduced to what `syncClockDrift` reads:
the clock offset (a `time.Duration`, int64 nanoseconds) and the result of
`response.Validate()`. -/
structure NtpResponse where
  clockOffset : Int
  validateErr : Option String
deriving DecidableEq, Repr

/-- Embeds `syncClockDrift`: on query failure or validation failure the error is
returned and the state is untouched; otherwise `clockDrift` is set to the
response clock offset and nil is returned. -/
def syncClockDrift (st : CannonState) (queryRes : Except String NtpResponse) :
    CannonState × Option String :=
  match queryRes with
  | .error e => (st, some e)
  | .ok resp =>
    match resp.validateErr with
    | some e => (st, some e)
    | none => ({ st with clockDrift := resp.clockOffset }, none)

/-- The schedule string `startCrons` registers the clock-drift job under
(`c.scheduler.Every("5m")`). -/
def startCronsInterval : String := "5m"

/-- The shutdown phase of `Start` after a SIGINT/SIGTERM is received: stop
each sink in order, returning the first error; the result is the list of
sinks whose `Stop` was invoked and the returned error (`none` = nil, the
clean-shutdown exit). -/
def startShutdown (sinks : List Sink) : List String × Option String :=
  match sinks with
  | [] => ([], none)
  | s :: rest =>
    match s.stopResult with
    | some e => ([s.typeName], some e)
    | none =>
      let tail := startShutdown rest
      (s.typeName :: tail.1, tail.2)

/-- The readiness callback registered by `startBeaconBlockProcessor`:
builds the client meta once, then the six derivers in source order, each
with its own checkpoint iterator over the same network identity and the
checkpoint name "finalized", and assigns the list to `eventDerivers`.
Returns `none` when the beacon metadata has no network (the Go code would
dereference nil there). -/
def readinessCallback (st : CannonState) :
    Option (CannonState × List EventDeriver) :=
  match st.beacon.metadata.network with
  | none => none
  | some nw =>
    let networkName := nw.name
    let networkID := toString nw.id
    let clientMeta := createNewClientMeta st
    let finalizedCheckpoint := "finalized"
    let mkIter : CannonType → CheckpointIterator := fun t =>
      { networkName := networkName
        networkID := networkID
        cannonType := t
        checkpointName := finalizedCheckpoint }
    let eventDerivers : List EventDeriver :=
      [ { cannonType := .attesterSlashing
          iter := mkIter .attesterSlashing
          clientMeta := clientMeta },
        { cannonType := .proposerSlashing
          iter := mkIter .proposerSlashing
          clientMeta := clientMeta },
        { cannonType := .voluntaryExit
          iter := mkIter .voluntaryExit
          clientMeta := clientMeta },
        { cannonType := .deposit
          iter := mkIter .deposit
          clientMeta := clientMeta },
        { cannonType := .blsToExecutionChange
          iter := mkIter .blsToExecutionChange
          clientMeta := clientMeta },
        { cannonType := .executionTransaction
          iter := mkIter .executionTransaction
          clientMeta := clientMeta } ]
    some ({ st with eventDerivers := some eventDerivers }, eventDerivers)

/-- Modelled from the spec: the deriver framework's
`decorated ← decorate(events, client_meta, event_time)` step (package
pkg/cannon/deriver is not under src/).  Each event a deriver extracts is
stamped with the client meta the deriver holds — the read-only reference
it was constructed with. -/
def decorateEvents (d : EventDeriver) (payloads : List String) :
    List DecoratedEvent :=
  payloads.map fun p =>
    { eventType := d.cannonType
      meta := d.clientMeta
      payload := p }

end Xatu

namespace Wallclock

/-- Embeds `TimeWindow`: a start and end instant.  Instants are modelled as `Int`
nanoseconds since the epoch, the representation inside Go `time.Time`
comparisons. -/
structure TimeWindow where
  start : Int
  «end» : Int
deriving DecidableEq, Repr

/-- Embeds `NewTimeWindow(start, end)`. -/
def NewTimeWindow (start «end» : Int) : TimeWindow :=
  { start := start, «end» := «end» }

/-- Embeds `TimeWindow.Start()`. -/
def TimeWindow.Start (t : TimeWindow) : Int := t.start

/-- Embeds `TimeWindow.End()`. -/
def TimeWindow.End (t : TimeWindow) : Int := t.«end»

/-- Embeds `TimeWindow.Active()`: `t.start.Before(time.Now()) &&
t.end.After(time.Now())`, with the current instant passed explicitly. -/
def TimeWindow.Active (t : TimeWindow) (now : Int) : Bool :=
  decide (t.start < now) && decide (t.«end» > now)

/-- Embeds `TimeWindow.EndsIn()`: `t.end.Sub(time.Now())`. -/
def TimeWindow.EndsIn (t : TimeWindow) (now : Int) : Int := t.«end» - now

/-- Embeds `TimeWindow.StartsIn()`: `t.start.Sub(time.Now())`. -/
def TimeWindow.StartsIn (t : TimeWindow) (now : Int) : Int := t.start - now

end Wallclock

namespace Xatu

/-- A concrete configuration whose validation succeeds, for witnesses. -/
def sampleConfig : Config :=
  { name := "cannon-1"
    ntpServer := "time.google.com"
    labels := [("env", "test")]
    ethereum := { overrideNetworkName := "" }
    metricsAddr := ":9090"
    pprofAddr := none
    services := { validateErr := none }
    store := { validateErr := none }
    geoip := { validateErr := none } }

/-- A concrete configuration whose validation fails, for witnesses. -/
def badConfig : Config :=
  { sampleConfig with services := { validateErr := some "invalid address" } }

/-- A concrete beacon node reporting a mainnet identity, for witnesses. -/
def sampleBeacon : BeaconNode :=
  { metadata :=
    { network := some { name := "mainnet", id := 1 }
      client := "lighthouse"
      nodeVersion := "v4.5.0" } }

/-- A concrete sink whose operations all succeed, for witnesses. -/
def sampleSinkOk : Sink :=
  { typeName := "http"
    handleResult := fun _ => none
    startResult := none
    stopResult := none }

/-- A concrete sink whose handle call fails, for witnesses. -/
def sampleSinkBad : Sink :=
  { typeName := "grpc"
    handleResult := fun _ => some "boom"
    startResult := none
    stopResult := none }

/-- The Cannon state `New` produces for the sample inputs. -/
def sampleCannon : CannonState :=
  { config := sampleConfig
    sinks := [sampleSinkOk, sampleSinkBad]
    beacon := sampleBeacon
    clockDrift := 0
    idStr := "id-1"
    eventDerivers := none
    coordinatorClient := { address := "coordinator:8080" } }

/-- A sample state whose measured clock drift is negative (-1 ms). -/
def sampleNegativeDriftCannon : CannonState :=
  { sampleCannon with clockDrift := -1000000 }

/-- The state after the readiness callback ran on the sample Cannon. -/
def sampleReadyState : CannonState :=
  ((readinessCallback sampleCannon).getD (sampleCannon, [])).1

/-- The deriver list built by the readiness callback on the sample Cannon. -/
def sampleReadyDerivers : List EventDeriver :=
  ((readinessCallback sampleCannon).getD (sampleCannon, [])).2

/-- The sample ready state after one successful clock-drift sync that
measured an offset of 5 ms. -/
def sampleAfterSync : CannonState :=
  (syncClockDrift sampleReadyState (.ok { clockOffset := 5000000, validateErr := none })).1

end Xatu

namespace Wallclock

/-- C9: NewTimeWindow(start, end) yields Start() = start and End() = end,
and Active() holds exactly when the current instant lies strictly between
start and end; in particular a window whose end is not after its start is
never active. -/
theorem timeWindow_accessors_and_active (start «end» now : Int) :
    (NewTimeWindow start «end»).Start = start ∧
    (NewTimeWindow start «end»).End = «end» ∧
    ((NewTimeWindow start «end»).Active now = true ↔ start < now ∧ now < «end») ∧
    («end» ≤ start → (NewTimeWindow start «end»).Active now = false) := by
  refine ⟨rfl, rfl, ?_, ?_⟩
  · simp [NewTimeWindow, TimeWindow.Active]
  · intro hle
    simp only [NewTimeWindow, TimeWindow.Active, Bool.and_eq_false_iff,
      decide_eq_false_iff_not, not_lt, gt_iff_lt]
    omega

/-- Witness for C9 at the concrete window [5, 3] and instant 4: an empty
window is never active. -/
theorem timeWindow_accessors_and_active_witness :
    (NewTimeWindow 5 3).Active 4 = false :=
  (timeWindow_accessors_and_active 5 3 4).2.2.2 (by decide)

end Wallclock

namespace Xatu

/-- C10: the ClockDrift stamped by createNewClientMeta is
uint64(clockDrift.Milliseconds()); when the measured drift in
milliseconds is negative the conversion wraps modulo 2^64, producing a
value of at least 2^63. -/
theorem createNewClientMeta_clockDrift_wraps (st : CannonState) :
    (createNewClientMeta st).clockDrift =
      goUint64OfInt64 (goMilliseconds st.clockDrift) ∧
    (goMilliseconds st.clockDrift < 0 →
      -(2 : Int) ^ 63 ≤ goMilliseconds st.clockDrift →
      ((createNewClientMeta st).clockDrift : Int) =
        2 ^ 64 + goMilliseconds st.clockDrift ∧
      2 ^ 63 ≤ (createNewClientMeta st).clockDrift) := by
  refine ⟨rfl, ?_⟩
  intro hneg hbound
  have : (createNewClientMeta st).clockDrift =
      goUint64OfInt64 (goMilliseconds st.clockDrift) := rfl
  rw [this]
  unfold goUint64OfInt64
  constructor
  · omega
  · omega

/-- Witness for C10 at a drift of -1 ms: the stamped field is 2^64 - 1. -/
theorem createNewClientMeta_clockDrift_wraps_witness :
    ((createNewClientMeta sampleNegativeDriftCannon).clockDrift : Int) =
      2 ^ 64 + goMilliseconds sampleNegativeDriftCannon.clockDrift ∧
    2 ^ 63 ≤ (createNewClientMeta sampleNegativeDriftCannon).clockDrift :=
  (createNewClientMeta_clockDrift_wraps sampleNegativeDriftCannon).2
    (by decide) (by decide)

/-- Helper: the calls made by the sink loop. -/
theorem sinkLoop_calls_eq (sinks : List Sink) (events : List DecoratedEvent) :
    (sinkLoop sinks events).1 = sinks.map (fun s => (s.typeName, events)) := by
  induction sinks with
  | nil => rfl
  | cons s rest ih => simp [sinkLoop, ih]

/-- Helper: the error log lines produced by the sink loop. -/
theorem sinkLoop_logs_eq (sinks : List Sink) (events : List DecoratedEvent) :
    (sinkLoop sinks events).2 = sinks.filterMap (fun s =>
      (s.handleResult events).map (fun e =>
        "Failed to send events to sink " ++ s.typeName ++ ": " ++ e)) := by
  induction sinks with
  | nil => rfl
  | cons s rest ih =>
    simp only [sinkLoop, List.filterMap_cons]
    cases s.handleResult events with
    | none => simpa using ih
    | some e => simpa using ih

/-- C1: handleNewDecoratedEvents calls HandleNewDecoratedEvents on every
sink in order with the same batch; every sink error is logged; and the
function itself returns nil, so a sink failure never blocks the caller. -/
theorem handleNewDecoratedEvents_fans_out (sinks : List Sink)
    (events : List DecoratedEvent) :
    (handleNewDecoratedEvents sinks events).calls =
      sinks.map (fun s => (s.typeName, events)) ∧
    (handleNewDecoratedEvents sinks events).errorLogs =
      sinks.filterMap (fun s =>
        (s.handleResult events).map (fun e =>
          "Failed to send events to sink " ++ s.typeName ++ ": " ++ e)) ∧
    (handleNewDecoratedEvents sinks events).ret = none :=
  ⟨sinkLoop_calls_eq sinks events, sinkLoop_logs_eq sinks events, rfl⟩

end Xatu

namespace Xatu

/-- C5: New returns an error for a nil config and for a config whose
validation fails, and returns a Cannon only when the config is non-nil
and validates. -/
theorem New_aborts_on_config_error (cfg : Config)
    (sr : Except String (List Sink)) (br : Except String BeaconNode)
    (cr : Except String CoordinatorClient) (freshId : String) :
    (∃ e, New none sr br cr freshId = .error e) ∧
    (∀ e, cfg.Validate = some e → New (some cfg) sr br cr freshId = .error e) ∧
    (∀ c, New (some cfg) sr br cr freshId = .ok c →
      cfg.Validate = none ∧ c.config = cfg) := by
  refine ⟨⟨"config is required", rfl⟩, ?_, ?_⟩
  · intro e he
    simp [New, he]
  · intro c hc
    simp only [New] at hc
    cases hv : cfg.Validate with
    | some e => rw [hv] at hc; exact absurd hc (by simp)
    | none =>
      rw [hv] at hc
      refine ⟨rfl, ?_⟩
      cases sr with
      | error e => simp at hc
      | ok sinks =>
        cases br with
        | error e => simp at hc
        | ok b =>
          cases cr with
          | error e => simp at hc
          | ok co =>
            simp only [Except.ok.injEq] at hc
            rw [← hc]

/-- Witness for C5: the sample bad configuration aborts startup with its
validation error. -/
theorem New_aborts_on_config_error_witness :
    New (some badConfig) (.ok [sampleSinkOk]) (.ok sampleBeacon)
      (.ok { address := "coordinator:8080" }) "id-1" = .error "invalid address" :=
  (New_aborts_on_config_error badConfig (.ok [sampleSinkOk]) (.ok sampleBeacon)
    (.ok { address := "coordinator:8080" }) "id-1").2.1 "invalid address" rfl

/-- C6: syncClockDrift, registered on the 5-minute schedule, sets
clockDrift to the NTP clock offset and returns nil exactly when the query
and the response validation both succeed; on either failure it returns
that error and leaves the state untouched. -/
theorem syncClockDrift_updates_or_preserves (st : CannonState)
    (q : Except String NtpResponse) :
    startCronsInterval = "5m" ∧
    (∀ e, q = .error e → syncClockDrift st q = (st, some e)) ∧
    (∀ resp e, q = .ok resp → resp.validateErr = some e →
      syncClockDrift st q = (st, some e)) ∧
    (∀ resp, q = .ok resp → resp.validateErr = none →
      (syncClockDrift st q).1.clockDrift = resp.clockOffset ∧
      (syncClockDrift st q).2 = none) := by
  refine ⟨rfl, ?_, ?_, ?_⟩
  · intro e he
    subst he
    rfl
  · intro resp e hq hv
    subst hq
    simp [syncClockDrift, hv]
  · intro resp hq hv
    subst hq
    simp [syncClockDrift, hv]

/-- Witness for C6 at a concrete valid NTP response with offset 5 ms. -/
theorem syncClockDrift_updates_or_preserves_witness :
    (syncClockDrift sampleCannon
        (.ok { clockOffset := 5000000, validateErr := none })).1.clockDrift =
      5000000 ∧
    (syncClockDrift sampleCannon
        (.ok { clockOffset := 5000000, validateErr := none })).2 = none :=
  (syncClockDrift_updates_or_preserves sampleCannon
    (.ok { clockOffset := 5000000, validateErr := none })).2.2.2
    { clockOffset := 5000000, validateErr := none } rfl rfl

/-- C7: after the shutdown signal, Stop is invoked on every configured
sink in order, and when every Stop succeeds the shutdown phase returns
nil (clean exit). -/
theorem startShutdown_stops_all_sinks (sinks : List Sink)
    (h : ∀ s ∈ sinks, s.stopResult = none) :
    (startShutdown sinks).1 = sinks.map (fun s => s.typeName) ∧
    (startShutdown sinks).2 = none := by
  induction sinks with
  | nil => exact ⟨rfl, rfl⟩
  | cons s rest ih =>
    have hs : s.stopResult = none := h s (List.mem_cons_self s rest)
    have hrest := ih (fun t ht => h t (List.mem_cons_of_mem s ht))
    simp only [startShutdown, hs, List.map_cons]
    exact ⟨by rw [hrest.1], hrest.2⟩

/-- Witness for C7 on the two sample sinks, both of whose Stop calls
succeed. -/
theorem startShutdown_stops_all_sinks_witness :
    (startShutdown [sampleSinkOk, sampleSinkBad]).1 = ["http", "grpc"] ∧
    (startShutdown [sampleSinkOk, sampleSinkBad]).2 = none :=
  startShutdown_stops_all_sinks [sampleSinkOk, sampleSinkBad]
    (by intro s hs
        simp only [List.mem_cons, List.not_mem_nil, or_false] at hs
        rcases hs with h | h <;> subst h <;> rfl)

/-- C8: eventDerivers is nil on every Cannon built by New, the clock-drift
sync never touches it, and only the readiness callback assigns the deriver
list. -/
theorem eventDerivers_nil_until_readiness :
    (∀ cfg sr br cr freshId c, New (some cfg) sr br cr freshId = .ok c →
      c.eventDerivers = none) ∧
    (∀ st q, (syncClockDrift st q).1.eventDerivers = st.eventDerivers) ∧
    (∀ st st2 ds, readinessCallback st = some (st2, ds) →
      st2.eventDerivers = some ds) := by
  refine ⟨?_, ?_, ?_⟩
  · intro cfg sr br cr freshId c hc
    simp only [New] at hc
    cases hv : cfg.Validate with
    | some e => rw [hv] at hc; exact absurd hc (by simp)
    | none =>
      rw [hv] at hc
      cases sr with
      | error e => simp at hc
      | ok sinks =>
        cases br with
        | error e => simp at hc
        | ok b =>
          cases cr with
          | error e => simp at hc
          | ok co =>
            simp only [Except.ok.injEq] at hc
            rw [← hc]
  · intro st q
    cases q with
    | error e => rfl
    | ok resp =>
      cases hv : resp.validateErr with
      | some e => simp [syncClockDrift, hv]
      | none => simp [syncClockDrift, hv]
  · intro st st2 ds h
    unfold readinessCallback at h
    cases hn : st.beacon.metadata.network with
    | none => rw [hn] at h; exact absurd h (by simp)
    | some nw =>
      rw [hn] at h
      simp only [Option.some.injEq, Prod.mk.injEq] at h
      rw [← h.1, ← h.2]

/-- Witness for C8: the sample Cannon built by New has nil eventDerivers,
a drift sync preserves that, and the readiness callback assigns the
sample deriver list. -/
theorem eventDerivers_nil_until_readiness_witness :
    sampleCannon.eventDerivers = none ∧
    (syncClockDrift sampleCannon
        (.ok { clockOffset := 5000000, validateErr := none })).1.eventDerivers =
      sampleCannon.eventDerivers ∧
    sampleReadyState.eventDerivers = some sampleReadyDerivers :=
  ⟨eventDerivers_nil_until_readiness.1 sampleConfig
      (.ok [sampleSinkOk, sampleSinkBad]) (.ok sampleBeacon)
      (.ok { address := "coordinator:8080" }) "id-1" sampleCannon rfl,
   eventDerivers_nil_until_readiness.2.1 sampleCannon
      (.ok { clockOffset := 5000000, validateErr := none }),
   eventDerivers_nil_until_readiness.2.2 sampleCannon sampleReadyState
      sampleReadyDerivers rfl⟩

end Xatu

namespace Xatu

/-- Helper: every deriver built by the readiness callback holds the client
meta created (once) from the pre-callback state. -/
theorem readinessCallback_clientMeta_eq (st st2 : CannonState)
    (ds : List EventDeriver) (h : readinessCallback st = some (st2, ds))
    (d : EventDeriver) (hd : d ∈ ds) :
    d.clientMeta = createNewClientMeta st := by
  unfold readinessCallback at h
  cases hn : st.beacon.metadata.network with
  | none => rw [hn] at h; exact absurd h (by simp)
  | some nw =>
    rw [hn] at h
    simp only [Option.some.injEq, Prod.mk.injEq] at h
    obtain ⟨-, hds⟩ := h
    subst hds
    simp only [List.mem_cons, List.not_mem_nil, or_false] at hd
    rcases hd with h1 | h1 | h1 | h1 | h1 | h1 <;> subst h1 <;> rfl

/-- Helper: every event a deriver decorates carries that deriver's client
meta. -/
theorem decorateEvents_meta (d : EventDeriver) (payloads : List String)
    (e : DecoratedEvent) (he : e ∈ decorateEvents d payloads) :
    e.meta = d.clientMeta := by
  simp only [decorateEvents, List.mem_map] at he
  obtain ⟨p, -, rfl⟩ := he
  rfl

/-- C2: the client meta is built once inside the readiness callback and
the same value is held by every deriver it constructs; every event those
derivers decorate carries exactly that readiness-time snapshot. -/
theorem clientMeta_snapshot_shared (st st2 : CannonState)
    (ds : List EventDeriver) (h : readinessCallback st = some (st2, ds)) :
    ∀ d ∈ ds, d.clientMeta = createNewClientMeta st ∧
      ∀ payloads e, e ∈ decorateEvents d payloads →
        e.meta = createNewClientMeta st := by
  intro d hd
  have hm := readinessCallback_clientMeta_eq st st2 ds h d hd
  exact ⟨hm, fun payloads e he => by
    rw [decorateEvents_meta d payloads e he, hm]⟩

/-- Witness for C2 at the sample Cannon: the first readiness-built deriver
holds the snapshot meta. -/
theorem clientMeta_snapshot_shared_witness :
    (sampleReadyDerivers.getD 0 default).clientMeta =
      createNewClientMeta sampleCannon :=
  ((clientMeta_snapshot_shared sampleCannon sampleReadyState
      sampleReadyDerivers rfl) (sampleReadyDerivers.getD 0 default)
      (by decide)).1

/-- C3 counterexample: start the sample Cannon (drift 0 at readiness),
then one clock-drift sync measures 5 ms, so the live drift becomes 5 ms;
an event decorated afterwards by a readiness-built deriver still carries
ClockDrift 0, not the live value 5. -/
theorem clockDrift_live_sampling_counterexample :
    sampleAfterSync.eventDerivers = some sampleReadyDerivers ∧
    goUint64OfInt64 (goMilliseconds sampleAfterSync.clockDrift) = 5 ∧
    (decorateEvents (sampleReadyDerivers.getD 0 default) ["tx"]).map
        (fun e => e.meta.clockDrift) = [0] ∧
    (0 : Nat) ≠ goUint64OfInt64 (goMilliseconds sampleAfterSync.clockDrift) :=
  ⟨rfl, rfl, rfl, by decide⟩

/-- C3 amended: every event decorated by a readiness-built deriver carries
the ClockDrift captured when the ClientMeta snapshot was built at
readiness; later clock-drift syncs update the live drift but never the
derivers or the meta they stamp. -/
theorem clockDrift_snapshot_in_events (st st2 : CannonState)
    (ds : List EventDeriver) (h : readinessCallback st = some (st2, ds))
    (d : EventDeriver) (hd : d ∈ ds) (payloads : List String)
    (e : DecoratedEvent) (he : e ∈ decorateEvents d payloads)
    (q : Except String NtpResponse) :
    e.meta.clockDrift = goUint64OfInt64 (goMilliseconds st.clockDrift) ∧
    (syncClockDrift st2 q).1.eventDerivers = st2.eventDerivers := by
  have hm := readinessCallback_clientMeta_eq st st2 ds h d hd
  have hme := decorateEvents_meta d payloads e he
  refine ⟨?_, ?_⟩
  · rw [hme, hm]
    rfl
  · cases q with
    | error e2 => rfl
    | ok resp =>
      cases hv : resp.validateErr with
      | some e2 => simp [syncClockDrift, hv]
      | none => simp [syncClockDrift, hv]

/-- Witness for the amended C3 at the sample run. -/
theorem clockDrift_snapshot_in_events_witness :
    ((decorateEvents (sampleReadyDerivers.getD 0 default)
        ["tx"]).getD 0 default).meta.clockDrift =
      goUint64OfInt64 (goMilliseconds sampleCannon.clockDrift) ∧
    (syncClockDrift sampleReadyState
        (.ok { clockOffset := 5000000, validateErr := none })).1.eventDerivers =
      sampleReadyState.eventDerivers :=
  clockDrift_snapshot_in_events sampleCannon sampleReadyState
    sampleReadyDerivers rfl (sampleReadyDerivers.getD 0 default) (by decide)
    ["tx"]
    ((decorateEvents (sampleReadyDerivers.getD 0 default) ["tx"]).getD 0 default)
    (by decide)
    (.ok { clockOffset := 5000000, validateErr := none })

/-- C4: when the readiness callback fires on a state with a known network,
it builds exactly six derivers, one per event-type tag in source order,
each owning its own checkpoint iterator parameterised by that tag, the
network name and id, and the checkpoint name "finalized". -/
theorem readiness_builds_six_derivers (st : CannonState) (nw : BeaconNetwork)
    (h : st.beacon.metadata.network = some nw) :
    ∃ st2 ds, readinessCallback st = some (st2, ds) ∧
      ds.length = 6 ∧
      ds.map (fun d => d.cannonType) =
        [CannonType.attesterSlashing, CannonType.proposerSlashing,
         CannonType.voluntaryExit, CannonType.deposit,
         CannonType.blsToExecutionChange, CannonType.executionTransaction] ∧
      ∀ d ∈ ds, d.iter =
        { networkName := nw.name
          networkID := toString nw.id
          cannonType := d.cannonType
          checkpointName := "finalized" } := by
  unfold readinessCallback
  rw [h]
  refine ⟨_, _, rfl, rfl, rfl, ?_⟩
  intro d hd
  simp only [List.mem_cons, List.not_mem_nil, or_false] at hd
  rcases hd with h1 | h1 | h1 | h1 | h1 | h1 <;> subst h1 <;> rfl

/-- Witness for C4 at the sample Cannon on mainnet. -/
theorem readiness_builds_six_derivers_witness :
    sampleReadyDerivers.length = 6 ∧
    sampleReadyDerivers.map (fun d => d.cannonType) =
      [CannonType.attesterSlashing, CannonType.proposerSlashing,
       CannonType.voluntaryExit, CannonType.deposit,
       CannonType.blsToExecutionChange, CannonType.executionTransaction] := by
  obtain ⟨st2, ds, h1, h2, h3, -⟩ :=
    readiness_builds_six_derivers sampleCannon { name := "mainnet", id := 1 } rfl
  have hds : sampleReadyDerivers = ds := by
    unfold sampleReadyDerivers
    rw [h1]
    rfl
  rw [hds]
  exact ⟨h2, h3⟩

end Xatu
